import Mathlib

/-!
Shallow embedding of `chemprop/models/model.py`: the `MoleculeModel` wrapper
(classification / confidence flags, `use_last_hidden` toggle), the feed-forward
head built by `create_ffn`, the `forward` pass, and `build_model`.

Layer stacks are lists of `Layer` tags mirroring the `nn.Module` children of the
`nn.Sequential` head; numeric semantics of the external collaborators (the MPN
encoder, `nn.Linear` weights, `nn.Dropout`, the activation resolved by
`get_activation_function`) are parameters of the forward semantics, while
`nn.Sigmoid` is modelled as the real logistic function.
-/

namespace ChempropModel

/-- Configuration record: the `argparse.Namespace` fields read by `model.py`.
`confidence` is the CLI confidence-estimation setting (a string such as "nn"). -/
structure Args where
  hidden_size : Nat
  use_input_features : Bool
  features_dim : Nat
  dropout : ℚ
  activation : String
  output_size : Nat
  ffn_num_layers : Nat
  ffn_hidden_size : Nat
  last_hidden_size : Nat
  num_tasks : Nat
  dataset_type : String
  confidence : String
deriving DecidableEq

/-- One child module of the `nn.Sequential` head: `nn.Dropout(p)`, the resolved
activation module, or `nn.Linear(din, dout)`. -/
inductive Layer where
  | dropout (p : ℚ)
  | activation (name : String)
  | linear (din dout : Nat)
deriving DecidableEq

/-- Whether a head child is a linear transform. -/
def Layer.isLinear : Layer → Bool
  | Layer.linear _ _ => true
  | _ => false

/-- `first_linear_dim` computed at the top of `create_ffn`:
`args.hidden_size`, plus `args.features_dim` when `args.use_input_features`. -/
def first_linear_dim (args : Args) : Nat :=
  args.hidden_size + (if args.use_input_features then args.features_dim else 0)

/-- `output_size` as adjusted inside `create_ffn`: `args.output_size`,
doubled when the model's `confidence` flag is set (`output_size *= 2`). -/
def ffn_output_size (args : Args) (confidence : Bool) : Nat :=
  if confidence then args.output_size * 2 else args.output_size

/-- One iteration of the `for _ in range(args.ffn_num_layers - 3)` loop body:
`[activation, dropout, nn.Linear(ffn_hidden_size, ffn_hidden_size)]`. -/
def interiorBlock (args : Args) : List Layer :=
  [Layer.activation args.activation, Layer.dropout args.dropout,
   Layer.linear args.ffn_hidden_size args.ffn_hidden_size]

/-- The list `ffn` assembled by `MoleculeModel.create_ffn`.  Python's
`range(args.ffn_num_layers - 3)` is empty for any count `≤ 3`, which truncated
`Nat` subtraction reproduces. -/
def ffnLayers (args : Args) (confidence : Bool) : List Layer :=
  if args.ffn_num_layers = 1 then
    [Layer.dropout args.dropout,
     Layer.linear (first_linear_dim args) (ffn_output_size args confidence)]
  else
    [Layer.dropout args.dropout,
     Layer.linear (first_linear_dim args) args.ffn_hidden_size]
    ++ (List.replicate (args.ffn_num_layers - 3) (interiorBlock args)).flatten
    ++ [Layer.activation args.activation, Layer.dropout args.dropout,
        Layer.linear args.ffn_hidden_size args.last_hidden_size]
    ++ [Layer.activation args.activation, Layer.dropout args.dropout,
        Layer.linear args.last_hidden_size (ffn_output_size args confidence)]

/-- The `MoleculeModel` object: the two construction-time booleans, the mutable
`use_last_hidden` flag, and the sub-modules attached by `create_encoder` /
`create_ffn` (absent before those calls, hence `Option`).  The MPN encoder is
recorded by the `args` it was built from.  `weights_initialized` tracks the
external initialization pass (see `initialize_weights`). -/
structure MoleculeModel where
  classification : Bool
  confidence : Bool
  use_last_hidden : Bool
  encoder : Option Args
  ffn : Option (List Layer)
  weights_initialized : Bool
deriving DecidableEq

/-- `MoleculeModel.__init__`: stores the two flags and sets
`self.use_last_hidden = True`; no encoder or head exists yet. -/
def MoleculeModel.init (classification : Bool) (confidence : Bool) : MoleculeModel :=
  { classification := classification, confidence := confidence,
    use_last_hidden := true, encoder := none, ffn := none,
    weights_initialized := false }

/-- `MoleculeModel.create_encoder`: `self.encoder = MPN(args)`. -/
def MoleculeModel.create_encoder (m : MoleculeModel) (args : Args) : MoleculeModel :=
  { m with encoder := some args }

/-- `MoleculeModel.create_ffn`: `self.ffn = nn.Sequential(*ffn)` with the list
built per `ffnLayers`, using the model's own `confidence` flag. -/
def MoleculeModel.create_ffn (m : MoleculeModel) (args : Args) : MoleculeModel :=
  { m with ffn := some (ffnLayers args m.confidence) }

/-- Modelled from the spec: `initialize_weights` lives in `chemprop.nn_utils`
(not under src/); per the spec it applies a deterministic weight-initialization
pass over all learnable parameters of the assembled model.  Parameters are
external to this unit, so the pass is modelled as marking the model
initialized. -/
def initialize_weights (m : MoleculeModel) : MoleculeModel :=
  { m with weights_initialized := true }

/-- `build_model`: writes `args.output_size = args.num_tasks`, constructs the
wrapper (classifier iff `dataset_type == 'classification'`, confidence mode iff
`args.confidence == 'nn'`), then creates encoder, then head, then initializes
weights.  The mutated `args` is returned alongside the model to expose the
side effect. -/
def build_model (args : Args) : Args × MoleculeModel :=
  let output_size := args.num_tasks
  let args1 := { args with output_size := output_size }
  let is_classifier : Bool := args1.dataset_type == "classification"
  let model :=
    if args1.confidence == "nn" then MoleculeModel.init is_classifier true
    else MoleculeModel.init is_classifier false
  let model1 := model.create_encoder args1
  let model2 := model1.create_ffn args1
  (args1, initialize_weights model2)

/-- Identity-deduplicated child traversal: `nn.Module.children()` yields each
direct sub-module once, deduplicating by object identity.  `create_ffn` builds
its stack from a single shared `nn.Dropout` object, a single shared activation
object, and a fresh `nn.Linear` per stage, so on a head list built by
`create_ffn` the identity dedup keeps the first dropout entry, the first
activation entry, and every linear entry.  `seen` accumulates the non-linear
modules already yielded. -/
def childModulesAux (seen : List Layer) : List Layer → List Layer
  | [] => []
  | l :: ls =>
    if l.isLinear then l :: childModulesAux seen ls
    else if l ∈ seen then childModulesAux seen ls
    else l :: childModulesAux (l :: seen) ls

/-- The child-module list `list(self.ffn.children())` of a head built by
`create_ffn`, per `nn.Module.children()` object-identity semantics (see
`childModulesAux`). -/
def childModules (ls : List Layer) : List Layer := childModulesAux [] ls

/-- The logistic function computed by `nn.Sigmoid`. -/
noncomputable def sigmoid (x : ℝ) : ℝ := 1 / (1 + Real.exp (-x))

/-- Running a list of tensor-to-tensor stages in order (`nn.Sequential`). -/
def applyStages (stages : List (List ℝ → List ℝ)) (x : List ℝ) : List ℝ :=
  stages.foldl (fun v f => f v) x

/-- `MoleculeModel.forward`, with the numeric behaviour of the external pieces
supplied as parameters: `encSem` interprets the MPN encoder and `interp`
interprets each head child module; `training` is the ambient `nn.Module`
training flag.  The head run is `self.ffn` when `use_last_hidden` — its
`nn.Sequential` iterates every stored stage, repeated objects included — and
otherwise `nn.Sequential(*list(self.ffn.children())[:-1])`, where `children()`
deduplicates by object identity (see `childModules`) before the last child is
dropped.  Sigmoid is applied exactly when `self.classification and not
self.training and self.use_last_hidden`.  Accessing a never-created
sub-module is `none`. -/
noncomputable def MoleculeModel.forward
    (encSem : Args → List ℝ → List ℝ) (interp : Layer → List ℝ → List ℝ)
    (training : Bool) (m : MoleculeModel) (input : List ℝ) : Option (List ℝ) :=
  match m.ffn, m.encoder with
  | some ls, some eargs =>
      let ffn := if m.use_last_hidden then ls else (childModules ls).dropLast
      let output := applyStages (ffn.map interp) (encSem eargs input)
      some (if m.classification && !training && m.use_last_hidden
            then output.map sigmoid else output)
  | _, _ => none

/-- Shape transfer of one head child: dropout and activation preserve the
width, `nn.Linear(din, dout)` maps width `din` to `dout` and rejects any
other input width (the framework's shape mismatch). -/
def layerOutWidth : Layer → Nat → Option Nat
  | Layer.dropout _, w => some w
  | Layer.activation _, w => some w
  | Layer.linear din dout, w => if w = din then some dout else none

/-- Shape transfer of a head stack, chaining `layerOutWidth`. -/
def stackOutWidth : List Layer → Nat → Option Nat
  | [], w => some w
  | l :: ls, w =>
    match layerOutWidth l w with
    | some w2 => stackOutWidth ls w2
    | none => none

/-- Number of linear transforms in a head stack. -/
def countLinears (ls : List Layer) : Nat := (ls.filter Layer.isLinear).length

/-- The (input width, output width) pairs of the linear transforms of a stack,
in order. -/
def linearShapes (ls : List Layer) : List (Nat × Nat) :=
  ls.filterMap (fun l => match l with
    | Layer.linear a b => some (a, b)
    | _ => none)

/-- The example configuration of the spec: hidden=300, no external features,
dropout=0.0, output_size=1, ffn_num_layers=2, ffn_hidden_size=300,
last_hidden_size=300, regression, no confidence estimation. -/
def exampleArgs : Args :=
  { hidden_size := 300, use_input_features := false, features_dim := 0,
    dropout := 0, activation := "ReLU", output_size := 1,
    ffn_num_layers := 2, ffn_hidden_size := 300, last_hidden_size := 300,
    num_tasks := 1, dataset_type := "regression", confidence := "" }

/-- A concrete eval-mode interpretation of the head children, used for
concrete checks: dropout is the identity (its eval-mode behaviour), the
activation adds one to every coordinate, a linear doubles every coordinate. -/
def interpEx : Layer → List ℝ → List ℝ
  | Layer.dropout _, x => x
  | Layer.activation _, x => x.map (fun v => v + 1)
  | Layer.linear _ _, x => x.map (fun v => v * 2)

/-- A concrete encoder interpretation producing the zero hidden vector. -/
def encEx : Args → List ℝ → List ℝ := fun _ _ => [(0 : ℝ)]

/-! ### Helper lemmas -/

theorem sigmoid_nonneg (x : ℝ) : 0 ≤ sigmoid x := by
  unfold sigmoid
  positivity

theorem sigmoid_le_one (x : ℝ) : sigmoid x ≤ 1 := by
  unfold sigmoid
  rw [div_le_one (by positivity)]
  nlinarith [Real.exp_pos (-x)]

theorem linearShapes_append (l1 l2 : List Layer) :
    linearShapes (l1 ++ l2) = linearShapes l1 ++ linearShapes l2 :=
  List.filterMap_append l1 l2 _

theorem countLinears_append (l1 l2 : List Layer) :
    countLinears (l1 ++ l2) = countLinears l1 + countLinears l2 := by
  unfold countLinears
  rw [List.filter_append, List.length_append]

theorem linearShapes_flatten_replicate (args : Args) (n : Nat) :
    linearShapes (List.replicate n (interiorBlock args)).flatten =
      List.replicate n (args.ffn_hidden_size, args.ffn_hidden_size) := by
  induction n with
  | zero => rfl
  | succ k ih =>
    rw [List.replicate_succ, List.flatten_cons, linearShapes_append, ih]
    rfl

theorem countLinears_flatten_replicate (args : Args) (n : Nat) :
    countLinears (List.replicate n (interiorBlock args)).flatten = n := by
  induction n with
  | zero => rfl
  | succ k ih =>
    rw [List.replicate_succ, List.flatten_cons, countLinears_append, ih]
    have e : countLinears (interiorBlock args) = 1 := rfl
    omega

theorem countLinears_eq_shapes_length (ls : List Layer) :
    countLinears ls = (linearShapes ls).length := by
  induction ls with
  | nil => rfl
  | cons l t ih =>
    cases l <;>
      simp [countLinears, linearShapes, List.filter_cons, List.filterMap_cons,
        Layer.isLinear] at ih ⊢ <;>
      omega

theorem stackOutWidth_append (l1 l2 : List Layer) (w : Nat) :
    stackOutWidth (l1 ++ l2) w = (stackOutWidth l1 w).bind (stackOutWidth l2) := by
  induction l1 generalizing w with
  | nil => rfl
  | cons l ls ih =>
    rw [List.cons_append]
    cases h : layerOutWidth l w with
    | none => simp [stackOutWidth, h]
    | some w2 => simp [stackOutWidth, h, ih w2]

theorem stackOutWidth_flatten_replicate (args : Args) (n : Nat) :
    stackOutWidth (List.replicate n (interiorBlock args)).flatten
      args.ffn_hidden_size = some args.ffn_hidden_size := by
  induction n with
  | zero => rfl
  | succ k ih =>
    rw [List.replicate_succ, List.flatten_cons, stackOutWidth_append]
    have h1 : stackOutWidth (interiorBlock args) args.ffn_hidden_size =
        some args.ffn_hidden_size := by
      simp [interiorBlock, stackOutWidth, layerOutWidth]
    rw [h1]
    exact ih

theorem linearShapes_ffnLayers (args : Args) (conf : Bool)
    (h : args.ffn_num_layers ≠ 1) :
    linearShapes (ffnLayers args conf) =
      (first_linear_dim args, args.ffn_hidden_size) ::
        (List.replicate (args.ffn_num_layers - 3)
            (args.ffn_hidden_size, args.ffn_hidden_size) ++
          [(args.ffn_hidden_size, args.last_hidden_size),
           (args.last_hidden_size, ffn_output_size args conf)]) := by
  rw [ffnLayers, if_neg h, linearShapes_append, linearShapes_append,
    linearShapes_append, linearShapes_flatten_replicate]
  simp [linearShapes]

theorem countLinears_ffnLayers (args : Args) (conf : Bool)
    (h : args.ffn_num_layers ≠ 1) :
    countLinears (ffnLayers args conf) = (args.ffn_num_layers - 3) + 3 := by
  rw [ffnLayers, if_neg h, countLinears_append, countLinears_append,
    countLinears_append, countLinears_flatten_replicate]
  have e1 : countLinears [Layer.dropout args.dropout,
      Layer.linear (first_linear_dim args) args.ffn_hidden_size] = 1 := rfl
  have e3 : countLinears [Layer.activation args.activation,
      Layer.dropout args.dropout,
      Layer.linear args.ffn_hidden_size args.last_hidden_size] = 1 := rfl
  have e4 : countLinears [Layer.activation args.activation,
      Layer.dropout args.dropout,
      Layer.linear args.last_hidden_size (ffn_output_size args conf)] = 1 := rfl
  rw [e1, e3, e4]
  omega

/-! ### Claim theorems -/

/-- C1, counterexample: at the spec's own example configuration
(`ffn_num_layers = 2`), the head built by `create_ffn` does not contain exactly
2 linear transforms, and is not the five-element stack
`[dropout, linear 300→300, activation, dropout, linear 300→1]` (it holds three
linears: 300→300, 300→300, 300→1). -/
theorem c1_counterexample :
    ¬ (countLinears (ffnLayers exampleArgs false) = 2 ∧
       ffnLayers exampleArgs false =
         [Layer.dropout 0, Layer.linear 300 300, Layer.activation "ReLU",
          Layer.dropout 0, Layer.linear 300 1]) := by
  decide

/-- C1, amended: for layer count `N > 1` the linear transforms of the head are
`first_linear_dim → ffn_hidden_size`, then `N - 3` (clamped at zero) copies of
`ffn_hidden_size → ffn_hidden_size`, then `ffn_hidden_size → last_hidden_size`,
then `last_hidden_size → output`; hence exactly `N` linears when `N ≥ 3` but
three when `N = 2`; at the example configuration the head is the eight-element
stack `[dropout, linear 300→300, activation, dropout, linear 300→300,
activation, dropout, linear 300→1]`. -/
theorem c1_head_linear_structure (args : Args) (conf : Bool)
    (h : 1 < args.ffn_num_layers) :
    linearShapes (ffnLayers args conf) =
      (first_linear_dim args, args.ffn_hidden_size) ::
        (List.replicate (args.ffn_num_layers - 3)
            (args.ffn_hidden_size, args.ffn_hidden_size) ++
          [(args.ffn_hidden_size, args.last_hidden_size),
           (args.last_hidden_size, ffn_output_size args conf)]) ∧
    (3 ≤ args.ffn_num_layers →
      countLinears (ffnLayers args conf) = args.ffn_num_layers) ∧
    (args.ffn_num_layers = 2 → countLinears (ffnLayers args conf) = 3) ∧
    ffnLayers exampleArgs false =
      [Layer.dropout 0, Layer.linear 300 300,
       Layer.activation "ReLU", Layer.dropout 0, Layer.linear 300 300,
       Layer.activation "ReLU", Layer.dropout 0, Layer.linear 300 1] := by
  have hne : args.ffn_num_layers ≠ 1 := by omega
  refine ⟨linearShapes_ffnLayers args conf hne, ?_, ?_, by decide⟩
  · intro h3
    rw [countLinears_ffnLayers args conf hne]
    omega
  · intro h2
    rw [countLinears_ffnLayers args conf hne, h2]

/-- C1, witness: the amended structure at the example configuration. -/
theorem c1_witness :
    linearShapes (ffnLayers exampleArgs false) =
      [(300, 300), (300, 300), (300, 1)] ∧
    countLinears (ffnLayers exampleArgs false) = 3 :=
  ⟨(c1_head_linear_structure exampleArgs false (by decide)).1,
   (c1_head_linear_structure exampleArgs false (by decide)).2.2.1 rfl⟩

/-- C5: for layer count 1 the head is a single dropout-then-linear stage with
exactly one linear transform, whose input width is the hidden size plus the
external-feature width when external features are enabled (hidden size alone
otherwise) and whose output width is the computed output size. -/
theorem c5_single_layer_head (args : Args) (conf : Bool)
    (h : args.ffn_num_layers = 1) :
    ffnLayers args conf =
      [Layer.dropout args.dropout,
       Layer.linear
         (args.hidden_size +
           (if args.use_input_features then args.features_dim else 0))
         (if conf then args.output_size * 2 else args.output_size)] ∧
    countLinears (ffnLayers args conf) = 1 ∧
    linearShapes (ffnLayers args conf) =
      [(first_linear_dim args, ffn_output_size args conf)] := by
  rw [ffnLayers, if_pos h]
  exact ⟨rfl, rfl, rfl⟩

/-- C5, witness: the single-layer head at a concrete configuration. -/
theorem c5_witness :
    ffnLayers { exampleArgs with ffn_num_layers := 1 } false =
      [Layer.dropout 0, Layer.linear 300 1] ∧
    countLinears (ffnLayers { exampleArgs with ffn_num_layers := 1 } false) = 1 ∧
    linearShapes (ffnLayers { exampleArgs with ffn_num_layers := 1 } false) =
      [(300, 1)] :=
  c5_single_layer_head { exampleArgs with ffn_num_layers := 1 } false rfl

/-- C6: for layer count N > 1 the head is the first stage, then the interior
blocks repeated `N - 3` times, then the penultimate and final stages; the
interior repetition count is the Python-style clamp of `N - 3` at zero (it is
zero whenever `N ≤ 3`), and the head then holds `(N - 3) + 3` linears. -/
theorem c6_interior_stage_count (args : Args) (conf : Bool)
    (h : 1 < args.ffn_num_layers) :
    ffnLayers args conf =
      [Layer.dropout args.dropout,
       Layer.linear (first_linear_dim args) args.ffn_hidden_size]
      ++ (List.replicate (args.ffn_num_layers - 3) (interiorBlock args)).flatten
      ++ [Layer.activation args.activation, Layer.dropout args.dropout,
          Layer.linear args.ffn_hidden_size args.last_hidden_size]
      ++ [Layer.activation args.activation, Layer.dropout args.dropout,
          Layer.linear args.last_hidden_size (ffn_output_size args conf)] ∧
    ((args.ffn_num_layers - 3 : Nat) : Int) =
      max ((args.ffn_num_layers : Int) - 3) 0 ∧
    (args.ffn_num_layers ≤ 3 →
      (List.replicate (args.ffn_num_layers - 3) (interiorBlock args)).flatten =
        ([] : List Layer)) ∧
    countLinears (ffnLayers args conf) = (args.ffn_num_layers - 3) + 3 := by
  have hne : args.ffn_num_layers ≠ 1 := by omega
  refine ⟨?_, by omega, ?_, countLinears_ffnLayers args conf hne⟩
  · rw [ffnLayers, if_neg hne]
  · intro h3
    have e : args.ffn_num_layers - 3 = 0 := by omega
    rw [e]
    rfl

/-- C6, witness: at the example configuration (layer count 2) the interior
repetition is empty. -/
theorem c6_witness :
    (List.replicate (exampleArgs.ffn_num_layers - 3)
      (interiorBlock exampleArgs)).flatten = ([] : List Layer) :=
  (c6_interior_stage_count exampleArgs false (by decide)).2.2.1 (by decide)

theorem getLast_cons_append_pair {α : Type} (a x y : α) (l : List α) :
    (a :: (l ++ [x, y])).getLast? = some y := by
  have e : a :: (l ++ [x, y]) = (a :: (l ++ [x])) ++ [y] := by simp
  rw [e, List.getLast?_concat]

theorem linearShapes_getLast (args : Args) (conf : Bool) :
    ∃ p : Nat, (linearShapes (ffnLayers args conf)).getLast? =
      some (p, ffn_output_size args conf) := by
  by_cases h : args.ffn_num_layers = 1
  · refine ⟨first_linear_dim args, ?_⟩
    rw [ffnLayers, if_pos h]
    rfl
  · refine ⟨args.last_hidden_size, ?_⟩
    rw [linearShapes_ffnLayers args conf h]
    exact getLast_cons_append_pair _ _ _ _

/-- C3: the output width of the head's final linear transform is the computed
output size — doubled exactly when confidence mode is enabled — and through
`build_model`, which writes the task count into `output_size` before the head
is built, it is task count × 2 under confidence setting "nn" and the task
count otherwise. -/
theorem c3_final_output_width (args : Args) :
    ((build_model args).1.output_size = args.num_tasks) ∧
    (∀ conf : Bool, ∃ p : Nat,
      (linearShapes (ffnLayers args conf)).getLast? =
        some (p, if conf then args.output_size * 2 else args.output_size)) ∧
    (∃ p : Nat, ∃ ls : List Layer, (build_model args).2.ffn = some ls ∧
      (linearShapes ls).getLast? =
        some (p, if args.confidence = "nn" then args.num_tasks * 2
                 else args.num_tasks)) := by
  refine ⟨rfl, ?_, ?_⟩
  · intro conf
    exact linearShapes_getLast args conf
  · by_cases hc : args.confidence = "nn"
    · obtain ⟨p, hp⟩ := linearShapes_getLast
        { args with output_size := args.num_tasks } true
      refine ⟨p, ffnLayers { args with output_size := args.num_tasks } true,
        ?_, ?_⟩
      · simp [build_model, MoleculeModel.init, MoleculeModel.create_encoder,
          MoleculeModel.create_ffn, initialize_weights, hc]
      · rw [hp, if_pos hc]
        rfl
    · obtain ⟨p, hp⟩ := linearShapes_getLast
        { args with output_size := args.num_tasks } false
      refine ⟨p, ffnLayers { args with output_size := args.num_tasks } false,
        ?_, ?_⟩
      · simp [build_model, MoleculeModel.init, MoleculeModel.create_encoder,
          MoleculeModel.create_ffn, initialize_weights, hc]
      · rw [hp, if_neg hc]
        rfl

/-- C7: `build_model` writes the computed output width (the configuration's
task count) into the configuration's `output_size` field, and every other
configuration field is returned unchanged. -/
theorem c7_build_model_mutates_output_size (args : Args) :
    (build_model args).1 = { args with output_size := args.num_tasks } ∧
    (build_model args).1.output_size = args.num_tasks ∧
    (build_model args).1.hidden_size = args.hidden_size ∧
    (build_model args).1.use_input_features = args.use_input_features ∧
    (build_model args).1.features_dim = args.features_dim ∧
    (build_model args).1.dropout = args.dropout ∧
    (build_model args).1.activation = args.activation ∧
    (build_model args).1.ffn_num_layers = args.ffn_num_layers ∧
    (build_model args).1.ffn_hidden_size = args.ffn_hidden_size ∧
    (build_model args).1.last_hidden_size = args.last_hidden_size ∧
    (build_model args).1.num_tasks = args.num_tasks ∧
    (build_model args).1.dataset_type = args.dataset_type ∧
    (build_model args).1.confidence = args.confidence :=
  ⟨rfl, rfl, rfl, rfl, rfl, rfl, rfl, rfl, rfl, rfl, rfl, rfl, rfl⟩

/-- C8: the model built by `build_model` is a classifier exactly when the
dataset type is "classification", has confidence mode exactly when the
configuration's confidence setting is "nn", and is assembled by creating the
encoder, then the head, then running the weight initialization pass. -/
theorem c8_build_model_assembly (args : Args) :
    ((build_model args).2.classification = true ↔
      args.dataset_type = "classification") ∧
    ((build_model args).2.confidence = true ↔ args.confidence = "nn") ∧
    (build_model args).2.encoder = some (build_model args).1 ∧
    (build_model args).2.ffn =
      some (ffnLayers (build_model args).1 (build_model args).2.confidence) ∧
    (build_model args).2.weights_initialized = true ∧
    (build_model args).2 =
      initialize_weights
        (((MoleculeModel.init (args.dataset_type == "classification")
              (args.confidence == "nn")).create_encoder
            (build_model args).1).create_ffn (build_model args).1) := by
  by_cases hc : args.confidence = "nn"
  · have hb : (args.confidence == "nn") = true := by simp [hc]
    simp [build_model, MoleculeModel.init, MoleculeModel.create_encoder,
      MoleculeModel.create_ffn, initialize_weights, hc, hb]
  · have hb : (args.confidence == "nn") = false := by simp [hc]
    simp [build_model, MoleculeModel.init, MoleculeModel.create_encoder,
      MoleculeModel.create_ffn, initialize_weights, hc, hb]

theorem forward_eq (encSem : Args → List ℝ → List ℝ)
    (interp : Layer → List ℝ → List ℝ) (training : Bool)
    (m : MoleculeModel) (input : List ℝ) (ls : List Layer) (eargs : Args)
    (hf : m.ffn = some ls) (he : m.encoder = some eargs) :
    m.forward encSem interp training input =
      some (if m.classification && !training && m.use_last_hidden
            then (applyStages
                    ((if m.use_last_hidden then ls
                      else (childModules ls).dropLast).map interp)
                    (encSem eargs input)).map sigmoid
            else applyStages
                   ((if m.use_last_hidden then ls
                     else (childModules ls).dropLast).map interp)
                   (encSem eargs input)) := by
  unfold MoleculeModel.forward
  rw [hf, he]

theorem forward_pos (encSem : Args → List ℝ → List ℝ)
    (interp : Layer → List ℝ → List ℝ) (training : Bool)
    (m : MoleculeModel) (input : List ℝ) (ls : List Layer) (eargs : Args)
    (hf : m.ffn = some ls) (he : m.encoder = some eargs)
    (hcl : m.classification = true) (htr : training = false)
    (hul : m.use_last_hidden = true) :
    m.forward encSem interp training input =
      some ((applyStages (ls.map interp) (encSem eargs input)).map sigmoid) := by
  rw [forward_eq encSem interp training m input ls eargs hf he, hcl, htr, hul]
  simp

theorem forward_neg (encSem : Args → List ℝ → List ℝ)
    (interp : Layer → List ℝ → List ℝ) (training : Bool)
    (m : MoleculeModel) (input : List ℝ) (ls : List Layer) (eargs : Args)
    (hf : m.ffn = some ls) (he : m.encoder = some eargs)
    (hcond : (m.classification && !training && m.use_last_hidden) = false) :
    m.forward encSem interp training input =
      some (applyStages
        ((if m.use_last_hidden then ls
          else (childModules ls).dropLast).map interp)
        (encSem eargs input)) := by
  rw [forward_eq encSem interp training m input ls eargs hf he, hcond]
  simp

/-- C2: `forward` applies the elementwise sigmoid exactly when the model is a
classifier, is not training, and the full-output flag is set; in that case
every returned element lies in [0,1]; in every other case — in particular
whenever training — the raw head output is returned unchanged. -/
theorem c2_forward_sigmoid (encSem : Args → List ℝ → List ℝ)
    (interp : Layer → List ℝ → List ℝ) (training : Bool)
    (m : MoleculeModel) (input : List ℝ) (ls : List Layer) (eargs : Args)
    (hf : m.ffn = some ls) (he : m.encoder = some eargs) :
    (m.classification = true → training = false → m.use_last_hidden = true →
      m.forward encSem interp training input =
        some ((applyStages (ls.map interp) (encSem eargs input)).map sigmoid) ∧
      ∀ out : List ℝ, m.forward encSem interp training input = some out →
        ∀ y ∈ out, 0 ≤ y ∧ y ≤ 1) ∧
    (¬ (m.classification = true ∧ training = false ∧ m.use_last_hidden = true) →
      m.forward encSem interp training input =
        some (applyStages
          ((if m.use_last_hidden then ls
            else (childModules ls).dropLast).map interp)
          (encSem eargs input))) := by
  constructor
  · intro hcl htr hul
    have hfw := forward_pos encSem interp training m input ls eargs hf he
      hcl htr hul
    refine ⟨hfw, ?_⟩
    intro out hout y hy
    rw [hfw, Option.some_inj] at hout
    rw [← hout] at hy
    obtain ⟨x, hx, rfl⟩ := List.mem_map.mp hy
    exact ⟨sigmoid_nonneg x, sigmoid_le_one x⟩
  · intro hn
    have hcond : (m.classification && !training && m.use_last_hidden) = false := by
      cases hc1 : m.classification <;> cases ht1 : training <;>
        cases hu1 : m.use_last_hidden <;> simp_all
    exact forward_neg encSem interp training m input ls eargs hf he hcond

/-- C2, witness: a concrete classifier in inference mode with the full head
set; forward is the sigmoid image of the head output. -/
theorem c2_witness :
    ({ classification := true, confidence := false, use_last_hidden := true,
       encoder := some exampleArgs, ffn := some ([] : List Layer),
       weights_initialized := true } : MoleculeModel).forward
        (fun _ _ => [(0 : ℝ)]) (fun _ x => x) false [] =
      some ((applyStages (([] : List Layer).map (fun _ x => x))
        [(0 : ℝ)]).map sigmoid) :=
  ((c2_forward_sigmoid (fun _ _ => [(0 : ℝ)]) (fun _ x => x) false
      { classification := true, confidence := false, use_last_hidden := true,
        encoder := some exampleArgs, ffn := some ([] : List Layer),
        weights_initialized := true } [] ([] : List Layer) exampleArgs
      rfl rfl).1 rfl rfl rfl).1

theorem dropLast_append_triple {α : Type} (l : List α) (a b c : α) :
    (l ++ [a, b, c]).dropLast = l ++ [a, b] := by
  have e : l ++ [a, b, c] = (l ++ [a, b]) ++ [c] := by simp
  rw [e, List.dropLast_concat]

theorem getLast_append_triple {α : Type} (l : List α) (a b c : α) :
    (l ++ [a, b, c]).getLast? = some c := by
  have e : l ++ [a, b, c] = (l ++ [a, b]) ++ [c] := by simp
  rw [e, List.getLast?_concat]

theorem dropLast_append_pair {α : Type} (l : List α) (a b : α) :
    (l ++ [a, b]).dropLast = l ++ [a] := by
  have e : l ++ [a, b] = (l ++ [a]) ++ [b] := by simp
  rw [e, List.dropLast_concat]

theorem getLast_append_pair {α : Type} (l : List α) (a b : α) :
    (l ++ [a, b]).getLast? = some b := by
  have e : l ++ [a, b] = (l ++ [a]) ++ [b] := by simp
  rw [e, List.getLast?_concat]

theorem stackOutWidth_replicate_linear (w n : Nat) :
    stackOutWidth (List.replicate n (Layer.linear w w)) w = some w := by
  induction n with
  | zero => rfl
  | succ k ih => simp [List.replicate_succ, stackOutWidth, layerOutWidth, ih]

theorem childModulesAux_lin (seen : List Layer) (l : Layer) (ls : List Layer)
    (h1 : l.isLinear = true) :
    childModulesAux seen (l :: ls) = l :: childModulesAux seen ls := by
  simp [childModulesAux, h1]

theorem childModulesAux_skip (seen : List Layer) (l : Layer) (ls : List Layer)
    (h1 : l.isLinear = false) (h2 : l ∈ seen) :
    childModulesAux seen (l :: ls) = childModulesAux seen ls := by
  simp [childModulesAux, h1, h2]

theorem childModulesAux_new (seen : List Layer) (l : Layer) (ls : List Layer)
    (h1 : l.isLinear = false) (h2 : l ∉ seen) :
    childModulesAux seen (l :: ls) = l :: childModulesAux (l :: seen) ls := by
  simp [childModulesAux, h1, h2]

theorem childModulesAux_interior (args : Args) (seen : List Layer)
    (n : Nat) (rest : List Layer)
    (hD : Layer.dropout args.dropout ∈ seen)
    (hA : Layer.activation args.activation ∈ seen) :
    childModulesAux seen
        ((List.replicate n (interiorBlock args)).flatten ++ rest) =
      List.replicate n (Layer.linear args.ffn_hidden_size args.ffn_hidden_size)
        ++ childModulesAux seen rest := by
  induction n with
  | zero => rfl
  | succ k ih =>
    rw [List.replicate_succ, List.flatten_cons, List.append_assoc,
      List.replicate_succ]
    show childModulesAux seen
        (Layer.activation args.activation :: Layer.dropout args.dropout ::
         Layer.linear args.ffn_hidden_size args.ffn_hidden_size ::
         ((List.replicate k (interiorBlock args)).flatten ++ rest)) = _
    have hlA : (Layer.activation args.activation).isLinear = false := rfl
    have hlD : (Layer.dropout args.dropout).isLinear = false := rfl
    have hlL : (Layer.linear args.ffn_hidden_size
        args.ffn_hidden_size).isLinear = true := rfl
    rw [childModulesAux_skip _ _ _ hlA hA, childModulesAux_skip _ _ _ hlD hD,
      childModulesAux_lin _ _ _ hlL, ih]
    rfl

theorem childModules_ffnLayers_one (args : Args) (conf : Bool)
    (h : args.ffn_num_layers = 1) :
    childModules (ffnLayers args conf) = ffnLayers args conf := by
  rw [ffnLayers, if_pos h]
  simp [childModules, childModulesAux, Layer.isLinear]

theorem childModules_ffnLayers (args : Args) (conf : Bool)
    (h : args.ffn_num_layers ≠ 1) :
    childModules (ffnLayers args conf) =
      [Layer.dropout args.dropout,
       Layer.linear (first_linear_dim args) args.ffn_hidden_size,
       Layer.activation args.activation]
      ++ List.replicate (args.ffn_num_layers - 3)
          (Layer.linear args.ffn_hidden_size args.ffn_hidden_size)
      ++ [Layer.linear args.ffn_hidden_size args.last_hidden_size,
          Layer.linear args.last_hidden_size (ffn_output_size args conf)] := by
  rw [ffnLayers, if_neg h]
  cases hn : args.ffn_num_layers - 3 with
  | zero =>
    simp [childModules, childModulesAux, Layer.isLinear]
  | succ k =>
    have hDmem : Layer.dropout args.dropout ∈
        ([Layer.activation args.activation,
          Layer.dropout args.dropout] : List Layer) := by
      simp
    have hAmem : Layer.activation args.activation ∈
        ([Layer.activation args.activation,
          Layer.dropout args.dropout] : List Layer) := by
      simp
    rw [List.replicate_succ, List.flatten_cons]
    show childModulesAux []
        (Layer.dropout args.dropout ::
         Layer.linear (first_linear_dim args) args.ffn_hidden_size ::
         Layer.activation args.activation ::
         Layer.dropout args.dropout ::
         Layer.linear args.ffn_hidden_size args.ffn_hidden_size ::
         (((List.replicate k (interiorBlock args)).flatten ++
            [Layer.activation args.activation, Layer.dropout args.dropout,
             Layer.linear args.ffn_hidden_size args.last_hidden_size]) ++
           [Layer.activation args.activation, Layer.dropout args.dropout,
            Layer.linear args.last_hidden_size
              (ffn_output_size args conf)])) = _
    have hlA : (Layer.activation args.activation).isLinear = false := rfl
    have hlD : (Layer.dropout args.dropout).isLinear = false := rfl
    have hlL1 : (Layer.linear (first_linear_dim args)
        args.ffn_hidden_size).isLinear = true := rfl
    have hlLh : (Layer.linear args.ffn_hidden_size
        args.ffn_hidden_size).isLinear = true := rfl
    have hD0 : Layer.dropout args.dropout ∉ ([] : List Layer) := by
      simp
    have hA1 : Layer.activation args.activation ∉
        ([Layer.dropout args.dropout] : List Layer) := by
      simp
    rw [childModulesAux_new _ _ _ hlD hD0,
      childModulesAux_lin _ _ _ hlL1,
      childModulesAux_new _ _ _ hlA hA1,
      childModulesAux_skip _ _ _ hlD hDmem,
      childModulesAux_lin _ _ _ hlLh,
      List.append_assoc,
      childModulesAux_interior args _ k _ hDmem hAmem]
    simp [childModulesAux, Layer.isLinear, List.replicate_succ]

theorem head_shape (args : Args) (conf : Bool) :
    ∃ p o : Nat,
      (childModules (ffnLayers args conf)).getLast? =
        some (Layer.linear p o) ∧
      (ffnLayers args conf).getLast? = some (Layer.linear p o) ∧
      stackOutWidth (ffnLayers args conf) (first_linear_dim args) = some o ∧
      stackOutWidth (childModules (ffnLayers args conf)).dropLast
        (first_linear_dim args) = some p := by
  by_cases h : args.ffn_num_layers = 1
  · have hcm := childModules_ffnLayers_one args conf h
    refine ⟨first_linear_dim args, ffn_output_size args conf, ?_, ?_, ?_, ?_⟩
    · rw [hcm, ffnLayers, if_pos h]
      rfl
    · rw [ffnLayers, if_pos h]
      rfl
    · rw [ffnLayers, if_pos h]
      simp [stackOutWidth, layerOutWidth]
    · rw [hcm, ffnLayers, if_pos h]
      simp [stackOutWidth, layerOutWidth]
  · have easc : ffnLayers args conf =
        (([Layer.dropout args.dropout,
           Layer.linear (first_linear_dim args) args.ffn_hidden_size]
          ++ (List.replicate (args.ffn_num_layers - 3)
              (interiorBlock args)).flatten)
         ++ [Layer.activation args.activation, Layer.dropout args.dropout,
             Layer.linear args.ffn_hidden_size args.last_hidden_size])
        ++ [Layer.activation args.activation, Layer.dropout args.dropout,
            Layer.linear args.last_hidden_size (ffn_output_size args conf)] := by
      rw [ffnLayers, if_neg h]
    have e1 : stackOutWidth [Layer.dropout args.dropout,
        Layer.linear (first_linear_dim args) args.ffn_hidden_size]
        (first_linear_dim args) = some args.ffn_hidden_size := by
      simp [stackOutWidth, layerOutWidth]
    have e3 : stackOutWidth [Layer.activation args.activation,
        Layer.dropout args.dropout,
        Layer.linear args.ffn_hidden_size args.last_hidden_size]
        args.ffn_hidden_size = some args.last_hidden_size := by
      simp [stackOutWidth, layerOutWidth]
    have hpre : stackOutWidth
        (([Layer.dropout args.dropout,
           Layer.linear (first_linear_dim args) args.ffn_hidden_size]
          ++ (List.replicate (args.ffn_num_layers - 3)
              (interiorBlock args)).flatten)
         ++ [Layer.activation args.activation, Layer.dropout args.dropout,
             Layer.linear args.ffn_hidden_size args.last_hidden_size])
        (first_linear_dim args) = some args.last_hidden_size := by
      rw [stackOutWidth_append, stackOutWidth_append, e1, Option.some_bind,
        stackOutWidth_flatten_replicate, Option.some_bind, e3]
    have hcm := childModules_ffnLayers args conf h
    have eA3 : stackOutWidth [Layer.dropout args.dropout,
        Layer.linear (first_linear_dim args) args.ffn_hidden_size,
        Layer.activation args.activation] (first_linear_dim args) =
        some args.ffn_hidden_size := by
      simp [stackOutWidth, layerOutWidth]
    refine ⟨args.last_hidden_size, ffn_output_size args conf, ?_, ?_, ?_, ?_⟩
    · rw [hcm]
      exact getLast_append_pair _ _ _
    · rw [easc]
      exact getLast_append_triple _ _ _ _
    · rw [easc, stackOutWidth_append, hpre, Option.some_bind]
      simp [stackOutWidth, layerOutWidth]
    · rw [hcm, dropLast_append_pair, stackOutWidth_append,
        stackOutWidth_append, eA3, Option.some_bind,
        stackOutWidth_replicate_linear, Option.some_bind]
      simp [stackOutWidth, layerOutWidth]

/-- C4, counterexample: with the full-output flag off at the example head,
`forward` does not return the run of the stage list minus its final element.
`children()` deduplicates the shared dropout/activation objects, so the
program's truncated head is `[dropout, linear, activation, linear]`; under the
eval-mode interpretation `interpEx` on the zero hidden vector it returns
`[2]`, while the stage list minus its last element would return `[3]`. -/
theorem c4_counterexample :
    ({ classification := false, confidence := false, use_last_hidden := false,
       encoder := some exampleArgs, ffn := some (ffnLayers exampleArgs false),
       weights_initialized := true } : MoleculeModel).forward encEx interpEx
        false [] ≠
      some (applyStages ((ffnLayers exampleArgs false).dropLast.map interpEx)
        (encEx exampleArgs [])) := by
  have hfw := forward_neg encEx interpEx false
    { classification := false, confidence := false, use_last_hidden := false,
      encoder := some exampleArgs, ffn := some (ffnLayers exampleArgs false),
      weights_initialized := true } [] (ffnLayers exampleArgs false)
    exampleArgs rfl rfl rfl
  rw [hfw]
  have e1 : (childModules (ffnLayers exampleArgs false)).dropLast =
      [Layer.dropout 0, Layer.linear 300 300, Layer.activation "ReLU",
       Layer.linear 300 300] := by
    decide
  have e2 : (ffnLayers exampleArgs false).dropLast =
      [Layer.dropout 0, Layer.linear 300 300, Layer.activation "ReLU",
       Layer.dropout 0, Layer.linear 300 300, Layer.activation "ReLU",
       Layer.dropout 0] := by
    decide
  norm_num [e1, e2, applyStages, interpEx, encEx]

/-- C4 (amended): when the full-output flag is false, `forward` runs the
identity-deduplicated child list of the head minus its final child on the
encoder output — dropping the final linear together with the repeated
activation/dropout entries — with no sigmoid; the child list still ends in
the head's final linear transform, the full head carries the input width to
that linear's output width, and the truncated child list carries it to that
linear's input width, so the toggle removes exactly the final linear's effect
on the output shape. -/
theorem c4_truncated_children (encSem : Args → List ℝ → List ℝ)
    (interp : Layer → List ℝ → List ℝ) (training : Bool)
    (m : MoleculeModel) (input : List ℝ) (ls : List Layer) (eargs : Args)
    (hu : m.use_last_hidden = false) (hf : m.ffn = some ls)
    (he : m.encoder = some eargs) :
    m.forward encSem interp training input =
      some (applyStages ((childModules ls).dropLast.map interp)
        (encSem eargs input)) ∧
    ∀ args : Args, ∀ conf : Bool, ∃ p o : Nat,
      (childModules (ffnLayers args conf)).getLast? =
        some (Layer.linear p o) ∧
      (ffnLayers args conf).getLast? = some (Layer.linear p o) ∧
      stackOutWidth (ffnLayers args conf) (first_linear_dim args) = some o ∧
      stackOutWidth (childModules (ffnLayers args conf)).dropLast
        (first_linear_dim args) = some p := by
  constructor
  · have hcond : (m.classification && !training && m.use_last_hidden) = false := by
      rw [hu]
      simp
    have hfw := forward_neg encSem interp training m input ls eargs hf he hcond
    rw [hu] at hfw
    simpa using hfw
  · intro args conf
    exact head_shape args conf

/-- C4, witness: the example head with the full-output flag off; forward is
the run of the truncated deduplicated child list. -/
theorem c4_children_witness :
    ({ classification := false, confidence := false, use_last_hidden := false,
       encoder := some exampleArgs, ffn := some (ffnLayers exampleArgs false),
       weights_initialized := true } : MoleculeModel).forward encEx interpEx
        false [] =
      some (applyStages
        ((childModules (ffnLayers exampleArgs false)).dropLast.map interpEx)
        (encEx exampleArgs [])) :=
  (c4_truncated_children encEx interpEx false
      { classification := false, confidence := false, use_last_hidden := false,
        encoder := some exampleArgs, ffn := some (ffnLayers exampleArgs false),
        weights_initialized := true } [] (ffnLayers exampleArgs false)
      exampleArgs rfl rfl rfl).1

/-- C9: a freshly constructed `MoleculeModel` has `use_last_hidden = true`, so
does every model returned by `build_model`, and such a model's forward pass
runs the complete head, applying the sigmoid exactly when it is a classifier
outside training mode. -/
theorem c9_fresh_model_full_head (c b : Bool) (args : Args)
    (encSem : Args → List ℝ → List ℝ) (interp : Layer → List ℝ → List ℝ)
    (training : Bool) (input : List ℝ) :
    (MoleculeModel.init c b).use_last_hidden = true ∧
    (build_model args).2.use_last_hidden = true ∧
    (∀ ls : List Layer, ∀ eargs : Args,
      (build_model args).2.ffn = some ls →
      (build_model args).2.encoder = some eargs →
      (build_model args).2.forward encSem interp training input =
        some (if (build_model args).2.classification && !training
              then (applyStages (ls.map interp) (encSem eargs input)).map sigmoid
              else applyStages (ls.map interp) (encSem eargs input))) := by
  have hul : (build_model args).2.use_last_hidden = true := by
    by_cases hc : args.confidence = "nn" <;>
      simp [build_model, MoleculeModel.init, MoleculeModel.create_encoder,
        MoleculeModel.create_ffn, initialize_weights, hc]
  refine ⟨rfl, hul, ?_⟩
  intro ls eargs hf he
  rw [forward_eq encSem interp training (build_model args).2 input ls eargs
    hf he, hul]
  simp

/-- C9, witness: the model built from the example configuration, in training
mode. -/
theorem c9_witness :
    (build_model exampleArgs).2.forward (fun _ _ => [(0 : ℝ)]) (fun _ x => x)
        true [] =
      some (if (build_model exampleArgs).2.classification && !true
            then (applyStages ((ffnLayers exampleArgs false).map (fun _ x => x))
                    [(0 : ℝ)]).map sigmoid
            else applyStages ((ffnLayers exampleArgs false).map (fun _ x => x))
                   [(0 : ℝ)]) :=
  (c9_fresh_model_full_head true false exampleArgs (fun _ _ => [(0 : ℝ)])
      (fun _ x => x) true []).2.2 (ffnLayers exampleArgs false) exampleArgs
    rfl rfl

/-- C10: for layer count 1 with the full-output flag off, the truncated head is
the dropout stage alone — no linear transform, width preserved — and `forward`
applies no sigmoid regardless of classifier/training status. -/
theorem c10_truncated_single_layer (args : Args) (conf : Bool)
    (encSem : Args → List ℝ → List ℝ) (interp : Layer → List ℝ → List ℝ)
    (training : Bool) (m : MoleculeModel) (input : List ℝ) (eargs : Args)
    (hN : args.ffn_num_layers = 1) (hu : m.use_last_hidden = false)
    (hf : m.ffn = some (ffnLayers args conf)) (he : m.encoder = some eargs) :
    (ffnLayers args conf).dropLast = [Layer.dropout args.dropout] ∧
    stackOutWidth (ffnLayers args conf).dropLast (first_linear_dim args) =
      some (first_linear_dim args) ∧
    countLinears (ffnLayers args conf).dropLast = 0 ∧
    m.forward encSem interp training input =
      some (applyStages ([Layer.dropout args.dropout].map interp)
        (encSem eargs input)) := by
  have hdl : (ffnLayers args conf).dropLast = [Layer.dropout args.dropout] := by
    rw [ffnLayers, if_pos hN]
    rfl
  refine ⟨hdl, ?_, ?_, ?_⟩
  · rw [hdl]
    simp [stackOutWidth, layerOutWidth]
  · rw [hdl]
    rfl
  · have hcond : (m.classification && !training && m.use_last_hidden) = false := by
      rw [hu]
      simp
    have hfw := forward_neg encSem interp training m input (ffnLayers args conf)
      eargs hf he hcond
    rw [hu] at hfw
    simp only [Bool.false_eq_true, if_false] at hfw
    rw [childModules_ffnLayers_one args conf hN, hdl] at hfw
    exact hfw

/-- C10, witness: a concrete single-layer model with the full-output flag
off, as a classifier in inference mode. -/
theorem c10_witness :
    ({ classification := true, confidence := false, use_last_hidden := false,
       encoder := some exampleArgs,
       ffn := some (ffnLayers { exampleArgs with ffn_num_layers := 1 } false),
       weights_initialized := true } : MoleculeModel).forward
        (fun _ _ => [(2 : ℝ)]) (fun _ x => x) false [] =
      some (applyStages ([Layer.dropout 0].map (fun _ x => x)) [(2 : ℝ)]) :=
  (c10_truncated_single_layer { exampleArgs with ffn_num_layers := 1 } false
      (fun _ _ => [(2 : ℝ)]) (fun _ x => x) false
      { classification := true, confidence := false, use_last_hidden := false,
        encoder := some exampleArgs,
        ffn := some (ffnLayers { exampleArgs with ffn_num_layers := 1 } false),
        weights_initialized := true } [] exampleArgs rfl rfl rfl rfl).2.2.2

end ChempropModel
